import Mathlib

/-!
Shallow embedding of `src/aperisolve/analyzers/binwalk.py` (`analyze_binwalk`).

The runner invokes the `binwalk` extraction tool on an artifact, checks for
the extraction side-effect directory `output_dir / ("_" ++ image_name ++
".extracted")`, conditionally invokes `7z` to archive the extracted files,
removes the extraction directory, classifies the outcome, and performs
exactly one `update_data` write.

External effects are modelled by an oracle (`World`) fixing the outcome of
each external call: each `subprocess.run` either completes with a
`CompletedProcess` (exit code, captured stdout/stderr text) or raises an
exception (`subprocess.TimeoutExpired`, launch failure, ...) carrying its
message; the existence of the extraction directory after the binwalk call is a
boolean (a timed-out or failed binwalk may still have partially created
it); `shutil.rmtree` either succeeds or raises.  `update_data` is an
external collaborator outside this repository; it is modelled as a total
sink, and the writes the runner performs are recorded as a trace.
-/

/-- Mirror of the Python class `subprocess.CompletedProcess` as used by the runner:
exit code and captured textual stdout/stderr. -/
structure CompletedProcess where
  returncode : Int
  stdout : String
  stderr : String
deriving Repr, DecidableEq

/-- Outcome of one `subprocess.run` invocation: normal completion (any exit
code, since `check=False`), or an exception (timeout, launch failure, ...)
carrying its message `str(e)`. -/
inductive ProcOutcome where
  | completed (p : CompletedProcess)
  | raised (msg : String)
deriving Repr, DecidableEq

/-- Oracle fixing the behaviour of the external world during one invocation
of `analyze_binwalk`. -/
structure World where
  /-- Outcome of the `binwalk -e ../<image_name> --run-as=root` call. -/
  binwalkRun : ProcOutcome
  /-- Whether `extracted_dir` exists once the binwalk call returns or is
  killed; a timed-out binwalk may have partially created it. -/
  dirCreated : Bool
  /-- Outcome of the `7z a ../binwalk.7z *` call (consulted only if the
  runner reaches it). -/
  sevenZipRun : ProcOutcome
  /-- Behaviour of `shutil.rmtree extracted_dir`: `none` means it succeeds
  and removes the directory, `some msg` means it raises with message `msg`
  (consulted only if the runner reaches it). -/
  rmtreeRaises : Option String
deriving Repr, DecidableEq

/-- Name of the extraction side-effect directory inside `output_dir`:
`extracted_dir = output_dir / f"_\x7bimage_name\x7d.extracted"`. -/
def extractedDirName (imageName : String) : String :=
  "_" ++ imageName ++ ".extracted"

/-- The per-analyzer record passed to `update_data` under the `"binwalk"`
key: a status string plus the optional `error`, `output` and `download`
fields actually present in the dict the Python code builds. -/
structure Record where
  status : String
  error : Option String := none
  output : Option (List String) := none
  download : Option String := none
deriving Repr, DecidableEq

/-- Observable state of one run: the trace of `update_data` writes
performed (inner `"binwalk"` records, in order), whether `extracted_dir`
exists when the runner returns, whether the `7z` child was invoked, and the
final value of the `zip_exist` flag. -/
structure RunState where
  writes : List Record := []
  dirExists : Bool := false
  sevenZipInvoked : Bool := false
  zipExist : Bool := false
deriving Repr, DecidableEq

/-- Classification step, source lines 55-62: the `error_messages` list.
A binwalk message is appended when binwalk wrote stderr and no extraction
occurred; a 7z message (its stderr if non-empty, else the fixed fallback)
is appended when extraction occurred but `zip_exist` is false. -/
def errorMessages (binwalk_stderr : String) (extraction_occurred : Bool)
    (zip_exist : Bool) (zip_stderr : String) : List String :=
  (if binwalk_stderr ≠ "" ∧ extraction_occurred = false then
    ["Binwalk: " ++ binwalk_stderr]
  else []) ++
  (if extraction_occurred = true ∧ zip_exist = false then
    [if zip_stderr ≠ "" then "7z compression: " ++ zip_stderr
     else "7z compression failed with no error output"]
  else [])

/-- Result-record construction, source lines 55-83: the single record
written by `update_data` on normal completion of the try body.  If the
`error_messages` list is non-empty, an error record joining it with
newlines; otherwise an ok record whose `output` is binwalk stdout split on
newlines (the `data` object is a `CompletedProcess`, always truthy in
Python, so the `if data else []` guard never yields `[]`), with the
`download` key added exactly when `zip_exist` is set. -/
def classifyWrites (stdout binwalk_stderr : String)
    (extraction_occurred zip_exist : Bool) (zip_stderr : String)
    (outputDirName : String) : List Record :=
  let msgs := errorMessages binwalk_stderr extraction_occurred zip_exist zip_stderr
  if msgs ≠ [] then
    [{ status := "error", error := some (String.intercalate "\n" msgs) }]
  else
    let okBase : Record := { status := "ok", output := some (stdout.splitOn "\n") }
    if zip_exist then
      [{ okBase with download := some ("/download/" ++ outputDirName ++ "/binwalk") }]
    else [okBase]

/-- Body of the `try` block of `analyze_binwalk` (source lines 17-83).
Returns the final `RunState` on normal completion, or
`Except.error (msg, s)` when an exception with message `msg` escapes, `s`
being the observable state at the raise point.  All raise points precede
any `update_data` call, so an escaping exception always carries an empty
write trace. -/
def tryBody (w : World) (outputDirName : String) :
    Except (String × RunState) RunState :=
  match w.binwalkRun with
  | ProcOutcome.raised msg =>
      Except.error (msg,
        { writes := [], dirExists := w.dirCreated,
          sevenZipInvoked := false, zipExist := false })
  | ProcOutcome.completed data =>
      -- extraction_occurred = extracted_dir.exists()
      match w.dirCreated with
      | false =>
          -- zip_exist = False, zip_stderr = "", 7z not invoked, rmtree
          -- guarded by a second exists() check that is also false
          Except.ok
            { writes := classifyWrites data.stdout data.stderr false false ""
                outputDirName,
              dirExists := false, sevenZipInvoked := false, zipExist := false }
      | true =>
          match w.sevenZipRun with
          | ProcOutcome.raised msg =>
              Except.error (msg,
                { writes := [], dirExists := true,
                  sevenZipInvoked := true, zipExist := false })
          | ProcOutcome.completed zip_data =>
              -- zip_exist set iff 7z returned 0; then the rmtree step
              match w.rmtreeRaises with
              | some msg =>
                  Except.error (msg,
                    { writes := [], dirExists := true,
                      sevenZipInvoked := true,
                      zipExist := decide (zip_data.returncode = 0) })
              | none =>
                  Except.ok
                    { writes := classifyWrites data.stdout data.stderr true
                        (decide (zip_data.returncode = 0)) zip_data.stderr
                        outputDirName,
                      dirExists := false, sevenZipInvoked := true,
                      zipExist := decide (zip_data.returncode = 0) }

/-- The full runner `analyze_binwalk(input_img, output_dir)`: the try body
wrapped in `except Exception as e: update_data(..., \x7b"binwalk": \x7b"status":
"error", "error": str(e)\x7d\x7d)`.  `outputDirName` is `output_dir.name`.  The
image name only determines which directory path the `dirCreated` /
`dirExists` booleans track (`extractedDirName`), so it does not appear as a
separate argument. -/
def analyze_binwalk (w : World) (outputDirName : String) : RunState :=
  match tryBody w outputDirName with
  | Except.ok s => s
  | Except.error (msg, s) =>
      { s with writes := s.writes ++ [{ status := "error", error := some msg }] }

/-- Helper: the classification step always produces exactly one record. -/
theorem classifyWrites_length (so bs : String) (eo ze : Bool) (zs n : String) :
    (classifyWrites so bs eo ze zs n).length = 1 := by
  by_cases h : errorMessages bs eo ze zs = [] <;>
    cases ze <;>
      simp [classifyWrites, h]

/-- Helper: an exception escaping the try body always carries an empty
write trace (every raise point precedes the first `update_data` call). -/
theorem tryBody_error_writes (w : World) (n msg : String) (s : RunState)
    (h : tryBody w n = Except.error (msg, s)) : s.writes = [] := by
  rcases w with ⟨br, dc, zr, rr⟩
  cases br with
  | raised m =>
      simp [tryBody] at h
      rw [← h.2]
  | completed data =>
      cases dc with
      | false => simp [tryBody] at h
      | true =>
        cases zr with
        | raised m =>
            simp [tryBody] at h
            rw [← h.2]
        | completed zd =>
            cases rr with
            | some m =>
                simp [tryBody] at h
                rw [← h.2]
            | none => simp [tryBody] at h

/-- C1: refuted by the code.  When the `7z` child times out after binwalk
has created the extraction directory, the exception jumps to the `except`
handler, which writes the error record but never removes `extracted_dir`:
the run returns with `dirExists = true`, so the extraction side-effect
directory still exists after the runner returns on this exit path.  (The
`shutil.rmtree` cleanup sits inside the `try` block instead of a `finally`
block, so no exception path reaches it.) -/
theorem C1_timeout_leaves_extraction_dir :
    analyze_binwalk
      { binwalkRun := ProcOutcome.completed
          { returncode := 0, stdout := "scan output", stderr := "" },
        dirCreated := true,
        sevenZipRun := ProcOutcome.raised "7z timed out after 60 seconds",
        rmtreeRaises := none } "job1"
    = { writes := [{ status := "error",
                     error := some "7z timed out after 60 seconds" }],
        dirExists := true, sevenZipInvoked := true, zipExist := false } := by
  rfl

/-- C2: for every behaviour of the external world, `analyze_binwalk`
returns normally with exactly one `update_data` write, and whenever the try
body raises an exception, the single write is an error record carrying the
exception message verbatim. -/
theorem C2_no_propagation_exactly_one_write (w : World) (n : String) :
    (analyze_binwalk w n).writes.length = 1 ∧
    (∀ msg s, tryBody w n = Except.error (msg, s) →
      (analyze_binwalk w n).writes
        = [{ status := "error", error := some msg }]) := by
  constructor
  · rcases w with ⟨br, dc, zr, rr⟩
    cases br with
    | raised msg => simp [analyze_binwalk, tryBody]
    | completed data =>
      cases dc with
      | false => simp [analyze_binwalk, tryBody, classifyWrites_length]
      | true =>
        cases zr with
        | raised m => simp [analyze_binwalk, tryBody]
        | completed zd =>
          cases rr with
          | some m => simp [analyze_binwalk, tryBody]
          | none => simp [analyze_binwalk, tryBody, classifyWrites_length]
  · intro msg s h
    have hw : s.writes = [] := tryBody_error_writes w n msg s h
    unfold analyze_binwalk
    rw [h]
    simp [hw]

/-- Helper: joining a one-element list inserts no separator. -/
theorem intercalate_singleton (s a : String) : String.intercalate s [a] = a := rfl

/-- Helper: the classification ignores binwalk stderr once extraction
occurred (its guard requires `extraction_occurred` to be false). -/
theorem errorMessages_extracted_indep (bs bs2 zs : String) (ze : Bool) :
    errorMessages bs true ze zs = errorMessages bs2 true ze zs := by
  simp [errorMessages]

/-- C2 witness: at a concrete world whose binwalk call raises, the theorem
applies and both hypotheses of its second conjunct are discharged. -/
theorem C2_no_propagation_exactly_one_write_witness :
    (analyze_binwalk
      { binwalkRun := ProcOutcome.raised "boom", dirCreated := false,
        sevenZipRun := ProcOutcome.completed
          { returncode := 0, stdout := "", stderr := "" },
        rmtreeRaises := none } "j").writes.length = 1 ∧
    (analyze_binwalk
      { binwalkRun := ProcOutcome.raised "boom", dirCreated := false,
        sevenZipRun := ProcOutcome.completed
          { returncode := 0, stdout := "", stderr := "" },
        rmtreeRaises := none } "j").writes
      = [{ status := "error", error := some "boom" }] := by
  have h := C2_no_propagation_exactly_one_write
    { binwalkRun := ProcOutcome.raised "boom", dirCreated := false,
      sevenZipRun := ProcOutcome.completed
        { returncode := 0, stdout := "", stderr := "" },
      rmtreeRaises := none } "j"
  exact ⟨h.1, h.2 "boom"
    { writes := [], dirExists := false,
      sevenZipInvoked := false, zipExist := false } rfl⟩

/-- C3 counterexample: at the concrete world where extraction occurred and
the 7z call exits 2 with empty stderr, the message of the record is the string
"7z compression failed with no error output", which differs from the
string "archiving failed with no error output" named by the claim. -/
theorem C3_counterexample :
    (analyze_binwalk
      { binwalkRun := ProcOutcome.completed
          { returncode := 0, stdout := "scan", stderr := "" },
        dirCreated := true,
        sevenZipRun := ProcOutcome.completed
          { returncode := 2, stdout := "", stderr := "" },
        rmtreeRaises := none } "job1").writes
      = [{ status := "error",
           error := some "7z compression failed with no error output" }] ∧
    "7z compression failed with no error output"
      ≠ "archiving failed with no error output" := by
  exact ⟨rfl, by decide⟩

/-- C3 (amended): if the extraction directory was produced, the 7z call
completes with a non-zero exit code and empty stderr, and the cleanup
succeeds, the single record has status "error" and message exactly the
fixed fallback string "7z compression failed with no error output", with
no tag-prefixed empty text. -/
theorem C3_fallback_message (data zd : CompletedProcess) (n : String)
    (hrc : zd.returncode ≠ 0) (hs : zd.stderr = "") :
    (analyze_binwalk
      { binwalkRun := ProcOutcome.completed data, dirCreated := true,
        sevenZipRun := ProcOutcome.completed zd, rmtreeRaises := none } n).writes
      = [{ status := "error",
           error := some "7z compression failed with no error output" }] := by
  simp [analyze_binwalk, tryBody, classifyWrites, errorMessages, hrc, hs,
    intercalate_singleton]

/-- C3 witness for the amended theorem at a concrete world. -/
theorem C3_fallback_message_witness :
    (analyze_binwalk
      { binwalkRun := ProcOutcome.completed
          { returncode := 0, stdout := "s", stderr := "w" },
        dirCreated := true,
        sevenZipRun := ProcOutcome.completed
          { returncode := 1, stdout := "", stderr := "" },
        rmtreeRaises := none } "j").writes
      = [{ status := "error",
           error := some "7z compression failed with no error output" }] :=
  C3_fallback_message { returncode := 0, stdout := "s", stderr := "w" }
    { returncode := 1, stdout := "", stderr := "" } "j" (by decide) rfl

/-- C4: if the extraction directory was produced and the 7z call exits 0
(with the cleanup succeeding), the single record has status "ok", output
equal to binwalk stdout split into lines, and the download reference
"/download/" ++ output_dir.name ++ "/binwalk". -/
theorem C4_ok_with_download (data zd : CompletedProcess) (n : String)
    (hrc : zd.returncode = 0) :
    (analyze_binwalk
      { binwalkRun := ProcOutcome.completed data, dirCreated := true,
        sevenZipRun := ProcOutcome.completed zd, rmtreeRaises := none } n).writes
      = [{ status := "ok", output := some (data.stdout.splitOn "\n"),
           download := some ("/download/" ++ n ++ "/binwalk") }] := by
  simp [analyze_binwalk, tryBody, classifyWrites, errorMessages, hrc]

/-- C4 witness at a concrete world. -/
theorem C4_ok_with_download_witness :
    (analyze_binwalk
      { binwalkRun := ProcOutcome.completed
          { returncode := 0, stdout := "a\nb", stderr := "" },
        dirCreated := true,
        sevenZipRun := ProcOutcome.completed
          { returncode := 0, stdout := "", stderr := "" },
        rmtreeRaises := none } "j").writes
      = [{ status := "ok", output := some ("a\nb".splitOn "\n"),
           download := some "/download/j/binwalk" }] :=
  C4_ok_with_download
    { returncode := 0, stdout := "a\nb", stderr := "" }
    { returncode := 0, stdout := "", stderr := "" } "j" rfl

/-- C5: if no extraction directory appears and binwalk stderr is
non-empty, the single record has status "error" and its message is the
tag "Binwalk: " followed by the stderr text verbatim. -/
theorem C5_binwalk_stderr_error (data : CompletedProcess) (zr : ProcOutcome)
    (rr : Option String) (n : String) (hs : data.stderr ≠ "") :
    (analyze_binwalk
      { binwalkRun := ProcOutcome.completed data, dirCreated := false,
        sevenZipRun := zr, rmtreeRaises := rr } n).writes
      = [{ status := "error",
           error := some ("Binwalk: " ++ data.stderr) }] := by
  simp [analyze_binwalk, tryBody, classifyWrites, errorMessages, hs,
    intercalate_singleton]

/-- C5 witness at a concrete world. -/
theorem C5_binwalk_stderr_error_witness :
    (analyze_binwalk
      { binwalkRun := ProcOutcome.completed
          { returncode := 3, stdout := "", stderr := "bad magic" },
        dirCreated := false,
        sevenZipRun := ProcOutcome.completed
          { returncode := 0, stdout := "", stderr := "" },
        rmtreeRaises := none } "j").writes
      = [{ status := "error", error := some "Binwalk: bad magic" }] := by
  have h := C5_binwalk_stderr_error
    { returncode := 3, stdout := "", stderr := "bad magic" }
    (ProcOutcome.completed { returncode := 0, stdout := "", stderr := "" })
    none "j" (by decide)
  simpa using h

/-- C6: if no extraction directory appears and binwalk stderr is empty,
the single record has status "ok" with output equal to binwalk stdout
split into lines (possibly a list of one empty string) and no download
key. -/
theorem C6_no_extraction_ok (data : CompletedProcess) (zr : ProcOutcome)
    (rr : Option String) (n : String) (hs : data.stderr = "") :
    (analyze_binwalk
      { binwalkRun := ProcOutcome.completed data, dirCreated := false,
        sevenZipRun := zr, rmtreeRaises := rr } n).writes
      = [{ status := "ok", output := some (data.stdout.splitOn "\n"),
           download := none }] := by
  simp [analyze_binwalk, tryBody, classifyWrites, errorMessages, hs]

/-- C6 witness at a concrete world with empty stdout. -/
theorem C6_no_extraction_ok_witness :
    (analyze_binwalk
      { binwalkRun := ProcOutcome.completed
          { returncode := 0, stdout := "", stderr := "" },
        dirCreated := false,
        sevenZipRun := ProcOutcome.completed
          { returncode := 0, stdout := "", stderr := "" },
        rmtreeRaises := none } "j").writes
      = [{ status := "ok", output := some ("".splitOn "\n"), download := none }] :=
  C6_no_extraction_ok
    { returncode := 0, stdout := "", stderr := "" }
    (ProcOutcome.completed { returncode := 0, stdout := "", stderr := "" })
    none "j" rfl

/-- C7: if the extraction directory was produced and the 7z call completes
with a non-zero exit code and non-empty stderr (with the cleanup
succeeding), the single record has status "error" and its message is the
tag "7z compression: " followed by that stderr text. -/
theorem C7_zip_stderr_error (data zd : CompletedProcess) (n : String)
    (hrc : zd.returncode ≠ 0) (hs : zd.stderr ≠ "") :
    (analyze_binwalk
      { binwalkRun := ProcOutcome.completed data, dirCreated := true,
        sevenZipRun := ProcOutcome.completed zd, rmtreeRaises := none } n).writes
      = [{ status := "error",
           error := some ("7z compression: " ++ zd.stderr) }] := by
  simp [analyze_binwalk, tryBody, classifyWrites, errorMessages, hrc, hs,
    intercalate_singleton]

/-- C7 witness at a concrete world. -/
theorem C7_zip_stderr_error_witness :
    (analyze_binwalk
      { binwalkRun := ProcOutcome.completed
          { returncode := 0, stdout := "s", stderr := "" },
        dirCreated := true,
        sevenZipRun := ProcOutcome.completed
          { returncode := 2, stdout := "", stderr := "disk full" },
        rmtreeRaises := none } "j").writes
      = [{ status := "error",
           error := some "7z compression: disk full" }] := by
  have h := C7_zip_stderr_error
    { returncode := 0, stdout := "s", stderr := "" }
    { returncode := 2, stdout := "", stderr := "disk full" } "j"
    (by decide) (by decide)
  simpa using h

/-- C8: whenever the binwalk call returns normally, the 7z child is
invoked if and only if the extraction directory exists at that point, and
the `zip_exist` success flag is set if and only if the 7z call completes
with exit code exactly zero (any non-zero exit counts as failure). -/
theorem C8_zip_invocation_and_success (w : World) (n : String)
    (data : CompletedProcess) (hb : w.binwalkRun = ProcOutcome.completed data) :
    ((analyze_binwalk w n).sevenZipInvoked = w.dirCreated) ∧
    (∀ zd, w.sevenZipRun = ProcOutcome.completed zd → w.dirCreated = true →
      ((analyze_binwalk w n).zipExist = true ↔ zd.returncode = 0)) := by
  rcases w with ⟨br, dc, zr, rr⟩
  simp only at hb
  subst hb
  constructor
  · cases dc with
    | false => simp [analyze_binwalk, tryBody]
    | true =>
      cases zr with
      | raised m => simp [analyze_binwalk, tryBody]
      | completed zd =>
        cases rr with
        | some m => simp [analyze_binwalk, tryBody]
        | none => simp [analyze_binwalk, tryBody]
  · intro zd hz hd
    simp only at hz hd
    subst hz
    subst hd
    cases rr with
    | some m => simp [analyze_binwalk, tryBody]
    | none => simp [analyze_binwalk, tryBody]

/-- C8 witness: with binwalk completing, the directory present, and 7z
exiting 1, the 7z child was invoked and the success flag is false. -/
theorem C8_zip_invocation_and_success_witness :
    ((analyze_binwalk
      { binwalkRun := ProcOutcome.completed
          { returncode := 0, stdout := "", stderr := "" },
        dirCreated := true,
        sevenZipRun := ProcOutcome.completed
          { returncode := 1, stdout := "", stderr := "e" },
        rmtreeRaises := none } "j").sevenZipInvoked = true) ∧
    ¬ ((analyze_binwalk
      { binwalkRun := ProcOutcome.completed
          { returncode := 0, stdout := "", stderr := "" },
        dirCreated := true,
        sevenZipRun := ProcOutcome.completed
          { returncode := 1, stdout := "", stderr := "e" },
        rmtreeRaises := none } "j").zipExist = true) := by
  have h := C8_zip_invocation_and_success
    { binwalkRun := ProcOutcome.completed
        { returncode := 0, stdout := "", stderr := "" },
      dirCreated := true,
      sevenZipRun := ProcOutcome.completed
        { returncode := 1, stdout := "", stderr := "e" },
      rmtreeRaises := none } "j"
    { returncode := 0, stdout := "", stderr := "" } rfl
  refine ⟨h.1, fun hc => ?_⟩
  have h2 := (h.2 { returncode := 1, stdout := "", stderr := "e" } rfl rfl).mp hc
  exact absurd h2 (by decide)

/-- C9: the two classification error guards — non-empty binwalk stderr
with no extraction, and extraction with the zip-success flag unset — are
mutually exclusive, so the `error_messages` list is empty or a singleton
and the newline join never concatenates two messages. -/
theorem C9_error_conditions_exclusive (bs zs : String) (eo ze : Bool) :
    (¬ ((bs ≠ "" ∧ eo = false) ∧ (eo = true ∧ ze = false))) ∧
    (errorMessages bs eo ze zs = [] ∨
      ∃ m, errorMessages bs eo ze zs = [m] ∧
        String.intercalate "\n" (errorMessages bs eo ze zs) = m) := by
  constructor
  · rintro ⟨⟨-, h2⟩, h3, -⟩
    rw [h2] at h3
    exact Bool.false_ne_true h3
  · cases eo with
    | false =>
      by_cases hb : bs = ""
      · left; simp [errorMessages, hb]
      · right
        refine ⟨"Binwalk: " ++ bs, by simp [errorMessages, hb], ?_⟩
        simp [errorMessages, hb, intercalate_singleton]
    | true =>
      cases ze with
      | true => left; simp [errorMessages]
      | false =>
        by_cases hz : zs = ""
        · right
          refine ⟨"7z compression failed with no error output",
            by simp [errorMessages, hz], ?_⟩
          simp [errorMessages, hz, intercalate_singleton]
        · right
          refine ⟨"7z compression: " ++ zs,
            by simp [errorMessages, hz], ?_⟩
          simp [errorMessages, hz, intercalate_singleton]

/-- C10: once the extraction directory exists after a normally returning
binwalk call, the binwalk stderr text never contributes to the writes
(replacing it changes nothing), and when the 7z call exits 0 and cleanup
succeeds the record is the ok record with download reference even if
binwalk stderr was non-empty. -/
theorem C10_binwalk_stderr_ignored (w : World) (n : String)
    (data : CompletedProcess) (hb : w.binwalkRun = ProcOutcome.completed data)
    (hd : w.dirCreated = true) :
    (∀ s2 : String,
      (analyze_binwalk
        { w with binwalkRun := ProcOutcome.completed { data with stderr := s2 } } n).writes
        = (analyze_binwalk w n).writes) ∧
    (∀ zd, w.sevenZipRun = ProcOutcome.completed zd → zd.returncode = 0 →
      w.rmtreeRaises = none →
      (analyze_binwalk w n).writes
        = [{ status := "ok", output := some (data.stdout.splitOn "\n"),
             download := some ("/download/" ++ n ++ "/binwalk") }]) := by
  rcases w with ⟨br, dc, zr, rr⟩
  simp only at hb hd
  subst hb
  subst hd
  constructor
  · intro s2
    cases zr with
    | raised m => simp [analyze_binwalk, tryBody]
    | completed zd =>
      cases rr with
      | some m => simp [analyze_binwalk, tryBody]
      | none =>
        simp only [analyze_binwalk, tryBody]
        rw [classifyWrites, classifyWrites,
          errorMessages_extracted_indep s2 data.stderr]
  · intro zd hz hrc hr
    simp only at hz hr
    subst hz
    subst hr
    simp [analyze_binwalk, tryBody, classifyWrites, errorMessages, hrc]

/-- C10 witness: with non-empty binwalk stderr, an existing extraction
directory and a successful 7z call, the record is the ok record. -/
theorem C10_binwalk_stderr_ignored_witness :
    ((analyze_binwalk
      { binwalkRun := ProcOutcome.completed
          { returncode := 0, stdout := "s", stderr := "" },
        dirCreated := true,
        sevenZipRun := ProcOutcome.completed
          { returncode := 0, stdout := "", stderr := "" },
        rmtreeRaises := none } "j").writes
      = (analyze_binwalk
      { binwalkRun := ProcOutcome.completed
          { returncode := 0, stdout := "s", stderr := "warning text" },
        dirCreated := true,
        sevenZipRun := ProcOutcome.completed
          { returncode := 0, stdout := "", stderr := "" },
        rmtreeRaises := none } "j").writes) ∧
    ((analyze_binwalk
      { binwalkRun := ProcOutcome.completed
          { returncode := 0, stdout := "s", stderr := "warning text" },
        dirCreated := true,
        sevenZipRun := ProcOutcome.completed
          { returncode := 0, stdout := "", stderr := "" },
        rmtreeRaises := none } "j").writes
      = [{ status := "ok", output := some ("s".splitOn "\n"),
           download := some "/download/j/binwalk" }]) := by
  have h := C10_binwalk_stderr_ignored
    { binwalkRun := ProcOutcome.completed
        { returncode := 0, stdout := "s", stderr := "warning text" },
      dirCreated := true,
      sevenZipRun := ProcOutcome.completed
        { returncode := 0, stdout := "", stderr := "" },
      rmtreeRaises := none } "j"
    { returncode := 0, stdout := "s", stderr := "warning text" } rfl rfl
  exact ⟨h.1 "",
    h.2 { returncode := 0, stdout := "", stderr := "" } rfl rfl rfl⟩

/-- C9 witness: instantiation at a concrete classification input where the
7z guard fires, showing the single-component join. -/
theorem C9_error_conditions_exclusive_witness :
    (¬ (("boom" ≠ "" ∧ true = false) ∧ (true = true ∧ false = false))) ∧
    (errorMessages "boom" true false "" = [] ∨
      ∃ m, errorMessages "boom" true false "" = [m] ∧
        String.intercalate "\n" (errorMessages "boom" true false "") = m) :=
  C9_error_conditions_exclusive "boom" "" true false
